import Mathlib

/-!
Verification of the no-code-architects-toolkit core: the asynchronous job
execution engine (`src/app.py`), the ffmpeg compose route
(`src/routes/v1/ffmpeg/ffmpeg_compose.py`), the declarative pipeline
compiler, and the image-to-video dimension selection
(`src/services/v1/image/convert/image_to_video.py`).

Shallow embedding conventions:
- JSON values are modelled by `JVal`; a JSON object used as a response body
  is a `List (String × JVal)` so that the exact key set and key order of the
  source literal are preserved.
- `time.time()` results are rationals passed in explicitly; each distinct
  call site of `time.time()` in the source becomes a distinct timestamp
  parameter.
- Python `round(x, 3)` is modelled by `round3`, rounding to the nearest
  multiple of 1/1000 (the tie-breaking direction is immaterial to every
  property proved here).
- `log_job_status` and `send_webhook` are external collaborators; the
  embedding records their invocations as an ordered list of `Event`s.
-/

/-- JSON-like values appearing in response bodies. -/
inductive JVal where
  | s (v : String)
  | n (v : Int)
  | q (v : ℚ)
  | nullv
  | obj (fields : List (String × JVal))
  | arr (items : List JVal)

/-- Embeds Python `data.get("k")` for a string-valued key: `None` becomes
JSON null. -/
def optStrVal : Option String → JVal
  | some v => JVal.s v
  | none => JVal.nullv

/-- Looks a key up in an embedded JSON object (first match, like a Python
dict whose literal has distinct keys). -/
def jget : List (String × JVal) → String → Option JVal
  | [], _ => none
  | (k, v) :: rest, key => if k = key then some v else jget rest key

/-- Python `round(x, 3)`: round to the nearest multiple of 1/1000. -/
def round3 (x : ℚ) : ℚ := (round (x * 1000) : ℚ) / 1000

/-- Ambient process-wide values of `src/app.py`: the `MAX_QUEUE_LENGTH`
environment setting (line 32), the worker queue identity `id(task_queue)`
(line 39), `os.getpid()` (lines 47 and 99; threads of one process share the
pid), and the imported `BUILD_NUMBER` (line 25). -/
structure Env where
  MAX_QUEUE_LENGTH : Nat
  queue_id : Nat
  pid : Nat
  BUILD_NUMBER : String

/-- The request JSON as `queue_task` reads it (`request.json` if the request
is JSON, else `{}`): only the `webhook_url` and `id` keys are consulted.
`webhook_url = none` embeds `'webhook_url' not in data`; `some u` embeds the
key being present with string value `u`. -/
structure ReqData where
  webhook_url : Option String
  id : Option String
deriving DecidableEq

/-- The value a wrapped route handler `f` returns: the source convention is
the triple `(payload, endpoint, status_code)` indexed as `response[0]`,
`response[1]`, `response[2]`. -/
structure WorkResult where
  payload : JVal
  endpoint : String
  code : Int

/-- One `log_job_status(job_id, {...})` observation sent to the status sink. -/
structure StatusObs where
  job_status : String
  job_id : String
  queue_id : Nat
  process_id : Nat
  response : Option (List (String × JVal))

/-- Side effects of the scheduler, in emission order. -/
inductive Event where
  | status (jobId : String) (obs : StatusObs)
  | webhook (url : String) (payload : List (String × JVal))

/-- A `task_queue` entry: `(job_id, data, task_func, queue_start_time)`
(src/app.py line 174; the closure `task_func` is represented by its
eventual `WorkResult`). -/
structure QueuedJob where
  job_id : String
  data : ReqData
  work : WorkResult
  queue_start_time : ℚ

/-- Result of one call to the `queue_task` wrapper: the Flask response body
and status, the status/webhook events emitted during the call, and the job
put on `task_queue`, if any. -/
structure SubmitResult where
  body : List (String × JVal)
  status : Int
  events : List Event
  enqueued : Option QueuedJob

/-- Embedding of the `queue_task(bypass_queue)(f)` wrapper body,
src/app.py lines 96-186. Parameters: `qsize` is `task_queue.qsize()` at
entry; `work` is the result the wrapped handler `f` returns when called;
`start_time` is the `time.time()` of line 100 and `t_end` the `time.time()`
of line 114 (only used on the inline path). -/
def queue_task (env : Env) (bypass_queue : Bool) (job_id : String)
    (data : ReqData) (qsize : Nat) (work : WorkResult)
    (start_time t_end : ℚ) : SubmitResult :=
  if bypass_queue || data.webhook_url.isNone then
    -- lines 102-140: run inline, log running, call f, build envelope, log done
    let runningObs : StatusObs :=
      { job_status := "running", job_id := job_id, queue_id := env.queue_id
        process_id := env.pid, response := none }
    let run_time : ℚ := t_end - start_time
    let response_obj : List (String × JVal) :=
      [("code", JVal.n work.code),
       ("id", optStrVal data.id),
       ("job_id", JVal.s job_id),
       ("response", if work.code = 200 then work.payload else JVal.nullv),
       ("message", if work.code = 200 then JVal.s "success" else work.payload),
       ("run_time", JVal.q (round3 run_time)),
       ("queue_time", JVal.n 0),
       ("total_time", JVal.q (round3 run_time)),
       ("pid", JVal.n env.pid),
       ("queue_id", JVal.n env.queue_id),
       ("queue_length", JVal.n qsize),
       ("build_number", JVal.s env.BUILD_NUMBER)]
    let doneObs : StatusObs :=
      { job_status := "done", job_id := job_id, queue_id := env.queue_id
        process_id := env.pid, response := some response_obj }
    { body := response_obj, status := work.code
      events := [Event.status job_id runningObs, Event.status job_id doneObs]
      enqueued := none }
  else if 0 < env.MAX_QUEUE_LENGTH ∧ env.MAX_QUEUE_LENGTH ≤ qsize then
    -- lines 142-163: admission control rejection
    let error_response : List (String × JVal) :=
      [("code", JVal.n 429),
       ("id", optStrVal data.id),
       ("job_id", JVal.s job_id),
       ("message", JVal.s ("MAX_QUEUE_LENGTH (" ++ toString env.MAX_QUEUE_LENGTH ++ ") reached")),
       ("pid", JVal.n env.pid),
       ("queue_id", JVal.n env.queue_id),
       ("queue_length", JVal.n qsize),
       ("build_number", JVal.s env.BUILD_NUMBER)]
    let doneObs : StatusObs :=
      { job_status := "done", job_id := job_id, queue_id := env.queue_id
        process_id := env.pid, response := some error_response }
    { body := error_response, status := 429
      events := [Event.status job_id doneObs]
      enqueued := none }
  else
    -- lines 165-186: log queued, put on the queue, return the 202 ack
    let queuedObs : StatusObs :=
      { job_status := "queued", job_id := job_id, queue_id := env.queue_id
        process_id := env.pid, response := none }
    let ack : List (String × JVal) :=
      [("code", JVal.n 202),
       ("id", optStrVal data.id),
       ("job_id", JVal.s job_id),
       ("message", JVal.s "processing"),
       ("pid", JVal.n env.pid),
       ("queue_id", JVal.n env.queue_id),
       ("max_queue_length",
         if 0 < env.MAX_QUEUE_LENGTH then JVal.n env.MAX_QUEUE_LENGTH
         else JVal.s "unlimited"),
       ("queue_length", JVal.n (qsize + 1)),
       ("build_number", JVal.s env.BUILD_NUMBER)]
    { body := ack, status := 202
      events := [Event.status job_id queuedObs]
      enqueued := some { job_id := job_id, data := data, work := work
                         queue_start_time := start_time } }

/-- Embedding of one iteration of the worker loop `process_queue`,
src/app.py lines 44-88, processing one dequeued job. The four `time.time()`
call sites become the four timestamps: `tDequeue` (line 45, inside the
`queue_time` computation), `tRunStart` (line 46), `tRunEnd` (line 59, inside
`run_time`), `tTotalEnd` (line 60, inside `total_time`). `qsizeAfter` is
`task_queue.qsize()` at line 73. Returns the envelope `response_data` and
the events emitted. -/
def process_queue_step (env : Env) (job : QueuedJob)
    (tDequeue tRunStart tRunEnd tTotalEnd : ℚ) (qsizeAfter : Nat) :
    List (String × JVal) × List Event :=
  let queue_time : ℚ := tDequeue - job.queue_start_time
  let run_time : ℚ := tRunEnd - tRunStart
  let total_time : ℚ := tTotalEnd - job.queue_start_time
  let runningObs : StatusObs :=
    { job_status := "running", job_id := job.job_id, queue_id := env.queue_id
      process_id := env.pid, response := none }
  let response_data : List (String × JVal) :=
    [("endpoint", JVal.s job.work.endpoint),
     ("code", JVal.n job.work.code),
     ("id", optStrVal job.data.id),
     ("job_id", JVal.s job.job_id),
     ("response", if job.work.code = 200 then job.work.payload else JVal.nullv),
     ("message", if job.work.code = 200 then JVal.s "success" else job.work.payload),
     ("pid", JVal.n env.pid),
     ("queue_id", JVal.n env.queue_id),
     ("run_time", JVal.q (round3 run_time)),
     ("queue_time", JVal.q (round3 queue_time)),
     ("total_time", JVal.q (round3 total_time)),
     ("queue_length", JVal.n qsizeAfter),
     ("build_number", JVal.s env.BUILD_NUMBER)]
  let doneObs : StatusObs :=
    { job_status := "done", job_id := job.job_id, queue_id := env.queue_id
      process_id := env.pid, response := some response_data }
  -- line 86: send the webhook only if webhook_url has a truthy, non-empty value
  let webhookEvts : List Event :=
    match job.data.webhook_url with
    | some url => if url = "" then [] else [Event.webhook url response_data]
    | none => []
  (response_data,
   [Event.status job.job_id runningObs, Event.status job.job_id doneObs]
     ++ webhookEvts)

/-- The `job_status` strings observed at the status sink for a given job id,
in emission order. -/
def statusList (events : List Event) (jid : String) : List String :=
  events.filterMap fun e =>
    match e with
    | Event.status j o => if j = jid then some o.job_status else none
    | Event.webhook _ _ => none

/-- The webhook deliveries among a list of events, in order. -/
def webhookEvents (events : List Event) : List (String × List (String × JVal)) :=
  events.filterMap fun e =>
    match e with
    | Event.webhook url payload => some (url, payload)
    | Event.status _ _ => none

/-- Helper for `donePrecededByRunning`: the flag records whether a
"running" observation has been seen so far. -/
def donePrecededByRunningAux : Bool → List String → Bool
  | _, [] => true
  | seenRunning, s :: rest =>
    if s = "done" && !seenRunning then false
    else donePrecededByRunningAux (seenRunning || s == "running") rest

/-- Every "done" in the status sequence is strictly preceded by a
"running". -/
def donePrecededByRunning (l : List String) : Bool :=
  donePrecededByRunningAux false l

/-! ## Image-to-video dimension selection
(src/services/v1/image/convert/image_to_video.py) -/

/-- Embedding of the orientation branch of `process_image_to_video`,
src/services/v1/image/convert/image_to_video.py lines 41-44: landscape
output only for a strictly wider-than-tall image. -/
def output_dims (width height : Nat) : String :=
  if width > height then "1920x1080" else "1080x1920"

/-- Embedding of the no-zoom video filter chain of `process_image_to_video`
(line 60): `scale=` followed by the selected output dimensions. -/
def vf_chain_no_zoom (width height : Nat) : String :=
  "scale=" ++ output_dims width height

/-! ## FFmpeg compose route and Execution Runner -/

/-- Modelled from the spec: `process_ffmpeg_compose` (the Pipeline
Compiler and Execution Runner of spec sections 4.1-4.2) is not under
`src/`; only its caller `ffmpeg_api` is. Per section 4.2 the runner invokes
the engine once; on non-zero exit it fails with an `EngineExecutionError`
carrying the diagnostic; after a zero exit it verifies every declared
output artifact exists and is non-empty, and an artifact that is missing or
zero-length is an `EngineExecutionError` even though the exit code was
zero. `fs f` is the observed file state of path `f`: `none` = missing,
`some n` = exists with size `n` bytes. `exitCode` and `diagnostic` are the
engine invocation outcome. On success, the declared output filenames are
returned. -/
def process_ffmpeg_compose (fs : String → Option Nat) (exitCode : Int)
    (diagnostic : String) (outputFilenames : List String) :
    Except String (List String) :=
  if exitCode ≠ 0 then
    Except.error ("EngineExecutionError: " ++ diagnostic)
  else if outputFilenames.any (fun f =>
      match fs f with
      | none => true
      | some n => n == 0) then
    Except.error "EngineExecutionError: output artifact missing or empty"
  else
    Except.ok outputFilenames

/-- Embedding of the output-URL loop of `ffmpeg_api`,
src/routes/v1/ffmpeg/ffmpeg_compose.py lines 122-145: for the `i`-th output
filename, if the file exists build
`{base_url}/download/{job_id}_output_{i}.mp4` merged with that output's
metadata entry; a missing file raises
`Expected output file ... not found`. -/
def buildOutputUrls (fs : String → Option Nat) (base_url job_id : String)
    (metadata : List (List (String × JVal))) :
    List String → Nat → Except String (List JVal)
  | [], _ => Except.ok []
  | f :: rest, i =>
    match fs f with
    | none => Except.error ("Expected output file " ++ f ++ " not found")
    | some _ =>
      match buildOutputUrls fs base_url job_id metadata rest (i + 1) with
      | Except.error e => Except.error e
      | Except.ok tail =>
        Except.ok (JVal.obj
          (("file_url",
            JVal.s (base_url ++ "/download/" ++ job_id ++ "_output_"
              ++ toString i ++ ".mp4")) :: metadata.getD i []) :: tail)

/-- Embedding of the `ffmpeg_api` handler body,
src/routes/v1/ffmpeg/ffmpeg_compose.py lines 116-151: run the compose
service, build the download URLs, return `(output_urls, endpoint, 200)`;
any raised error is caught and returned as `({"error": msg}, endpoint,
500)`. -/
def ffmpeg_api (fs : String → Option Nat) (exitCode : Int)
    (diagnostic : String) (outputFilenames : List String)
    (metadata : List (List (String × JVal))) (base_url job_id : String) :
    JVal × String × Int :=
  match process_ffmpeg_compose fs exitCode diagnostic outputFilenames with
  | Except.error e =>
    (JVal.obj [("error", JVal.s e)], "/v1/ffmpeg/compose", 500)
  | Except.ok files =>
    match buildOutputUrls fs base_url job_id metadata files 0 with
    | Except.error e =>
      (JVal.obj [("error", JVal.s e)], "/v1/ffmpeg/compose", 500)
    | Except.ok output_urls =>
      (JVal.arr output_urls, "/v1/ffmpeg/compose", 200)

/-! ## Pipeline Compiler -/

/-- One engine option token with its optional argument, as in the request
schema of src/routes/v1/ffmpeg/ffmpeg_compose.py (an `option` string and an
optional `argument`). -/
structure FFOption where
  option : String
  argument : Option String
deriving DecidableEq

/-- One declared input: a source locator and its ordered pre-input
options. -/
structure InputSpec where
  file_url : String
  options : List FFOption
deriving DecidableEq

/-- One declared output: its ordered output options. -/
structure OutputSpec where
  options : List FFOption
deriving DecidableEq

/-- The Pipeline Specification: ordered inputs, filter expressions,
outputs, and global options. -/
structure PipelineSpec where
  inputs : List InputSpec
  filters : List String
  outputs : List OutputSpec
  global_options : List FFOption
deriving DecidableEq

/-- One element of the compiled Invocation Plan, tagged by role. An output
destination is identified by the index of the declared output it was
generated for (the spec generates a fresh unique path per output). -/
inductive PlanElem where
  | globalOpt (o : FFOption)
  | inputOpt (o : FFOption)
  | inputLocator (file_url : String)
  | filterGraph (expr : String)
  | outputOpt (o : FFOption)
  | outputDest (index : Nat)
deriving DecidableEq

/-- Modelled from the spec: the Pipeline Compiler
`compile(spec) -> InvocationPlan` (spec section 4.1) lives inside
`process_ffmpeg_compose`, which is not under `src/`. Following steps 1-5:
defensively re-check the structural minimums (at least one input and one
output) and fail with `MalformedPipeline` otherwise; place the global
options first (single fixed slot before the inputs, per engine convention);
for each input in declared order emit its pre-input options in declared
order then its locator; concatenate all filter expressions in declared
order with the filter-graph separator into one argument applied once after
all inputs; for each output in declared order emit its options in declared
order followed by a generated unique destination. -/
def compile (spec : PipelineSpec) : Except String (List PlanElem) :=
  if spec.inputs = [] ∨ spec.outputs = [] then
    Except.error "MalformedPipeline"
  else
    Except.ok
      (spec.global_options.map PlanElem.globalOpt
        ++ spec.inputs.flatMap (fun inp =>
            inp.options.map PlanElem.inputOpt
              ++ [PlanElem.inputLocator inp.file_url])
        ++ (if spec.filters = [] then []
            else [PlanElem.filterGraph (String.intercalate ";" spec.filters)])
        ++ (spec.outputs.enum.flatMap fun io =>
            io.2.options.map PlanElem.outputOpt
              ++ [PlanElem.outputDest io.1]))

/-- Extracts an input locator from a plan element. -/
def inputLocatorOf : PlanElem → Option String
  | PlanElem.inputLocator u => some u
  | _ => none

/-- Extracts an output destination index from a plan element. -/
def outputDestOf : PlanElem → Option Nat
  | PlanElem.outputDest i => some i
  | _ => none

/-! ## Helper lemmas -/

/-- Adding two roundings differs from rounding the sum by at most one unit
in the last place. -/
theorem round3_add_bound (x y : ℚ) :
    |round3 (x + y) - (round3 x + round3 y)| ≤ 1 / 1000 := by
  obtain ⟨hx1, hx2⟩ := abs_le.mp (abs_sub_round (x * 1000))
  obtain ⟨hy1, hy2⟩ := abs_le.mp (abs_sub_round (y * 1000))
  obtain ⟨hz1, hz2⟩ := abs_le.mp (abs_sub_round ((x + y) * 1000))
  set m : ℤ := round ((x + y) * 1000) - round (x * 1000) - round (y * 1000)
    with hm
  have hmQ : (m : ℚ) = ((round ((x + y) * 1000) : ℚ) - (x + y) * 1000)
      - ((round (x * 1000) : ℚ) - x * 1000)
      - ((round (y * 1000) : ℚ) - y * 1000) := by
    rw [hm]; push_cast; ring
  have hmle : |(m : ℚ)| ≤ 3 / 2 := by
    rw [abs_le]
    constructor <;> (rw [hmQ]; linarith)
  have hm1 : |m| ≤ 1 := by
    by_contra hc
    push_neg at hc
    have h3 : (1 : ℤ) + 1 ≤ |m| := Int.add_one_le_iff.mpr hc
    have h4 : ((1 : ℤ) + 1 : ℚ) ≤ ((|m| : ℤ) : ℚ) := by exact_mod_cast h3
    rw [Int.cast_abs] at h4
    norm_num at h4
    linarith
  have key : round3 (x + y) - (round3 x + round3 y) = (m : ℚ) / 1000 := by
    rw [round3, round3, round3, hm]; push_cast; ring
  rw [key, abs_div]
  have habs : |(m : ℚ)| ≤ 1 := by
    rw [← Int.cast_abs]
    exact_mod_cast hm1
  rw [abs_of_pos (by norm_num : (0 : ℚ) < 1000)]
  have hfin : |(m : ℚ)| / 1000 ≤ 1 / 1000 := by gcongr
  exact hfin

/-- A filterMap whose function rejects every element of the list is empty. -/
theorem filterMap_none_of_forall {α β : Type} (f : α → Option β) (l : List α)
    (h : ∀ a ∈ l, f a = none) : l.filterMap f = [] := by
  induction l with
  | nil => rfl
  | cons hd tl ih =>
    rw [List.filterMap_cons, h hd (List.mem_cons_self hd tl)]
    exact ih fun a ha => h a (List.mem_cons_of_mem hd ha)

/-- The input locators of the input segment of a plan are exactly the
declared locators, in order. -/
theorem filterMap_inputLocator_inputs (inputs : List InputSpec) :
    (inputs.flatMap fun inp => inp.options.map PlanElem.inputOpt
        ++ [PlanElem.inputLocator inp.file_url]).filterMap inputLocatorOf
      = inputs.map InputSpec.file_url := by
  induction inputs with
  | nil => rfl
  | cons hd tl ih =>
    have hopts : (hd.options.map PlanElem.inputOpt).filterMap inputLocatorOf = [] :=
      filterMap_none_of_forall _ _ (by
        intro a ha
        rcases List.mem_map.mp ha with ⟨o, _, rfl⟩
        rfl)
    simp [List.flatMap_cons, List.filterMap_append, hopts, ih,
      List.filterMap_cons, inputLocatorOf]

/-- The output destinations of the output segment of a plan starting at
index `n` are exactly `n, n+1, ...`, one per declared output, in order. -/
theorem filterMap_outputDest_enumFrom (outs : List OutputSpec) (n : Nat) :
    ((List.enumFrom n outs).flatMap fun io =>
        io.2.options.map PlanElem.outputOpt
          ++ [PlanElem.outputDest io.1]).filterMap outputDestOf
      = List.range' n outs.length := by
  induction outs generalizing n with
  | nil => rfl
  | cons hd tl ih =>
    have hopts : (hd.options.map PlanElem.outputOpt).filterMap outputDestOf = [] :=
      filterMap_none_of_forall _ _ (by
        intro a ha
        rcases List.mem_map.mp ha with ⟨o, _, rfl⟩
        rfl)
    simp [List.enumFrom, List.flatMap_cons, List.filterMap_append, hopts, ih,
      List.filterMap_cons, outputDestOf, List.range']

/-- The output segment of a plan contains no input locator. -/
theorem filterMap_inputLocator_outputs (outs : List OutputSpec) (n : Nat) :
    ((List.enumFrom n outs).flatMap fun io =>
        io.2.options.map PlanElem.outputOpt
          ++ [PlanElem.outputDest io.1]).filterMap inputLocatorOf = [] :=
  filterMap_none_of_forall _ _ (by
    intro a ha
    rcases List.mem_flatMap.mp ha with ⟨io, _, hmem⟩
    rcases List.mem_append.mp hmem with h | h
    · rcases List.mem_map.mp h with ⟨o, _, rfl⟩
      rfl
    · rw [List.mem_singleton.mp h]
      rfl)

/-- The input segment of a plan contains no output destination. -/
theorem filterMap_outputDest_inputs (inputs : List InputSpec) :
    (inputs.flatMap fun inp => inp.options.map PlanElem.inputOpt
        ++ [PlanElem.inputLocator inp.file_url]).filterMap outputDestOf = [] :=
  filterMap_none_of_forall _ _ (by
    intro a ha
    rcases List.mem_flatMap.mp ha with ⟨inp, _, hmem⟩
    rcases List.mem_append.mp hmem with h | h
    · rcases List.mem_map.mp h with ⟨o, _, rfl⟩
      rfl
    · rw [List.mem_singleton.mp h]
      rfl)

/-- The status observations of one worker iteration for the processed job
are "running" then "done", whatever the webhook target. -/
theorem statusList_process_queue_step (env : Env) (job : QueuedJob)
    (tD tRS tRE tTE : ℚ) (qa : Nat) :
    statusList (process_queue_step env job tD tRS tRE tTE qa).2 job.job_id
      = ["running", "done"] := by
  rcases job with ⟨jid, ⟨wh, cid⟩, w, t0⟩
  cases wh with
  | none => simp [process_queue_step, statusList]
  | some u =>
    by_cases hu : u = "" <;>
      simp [process_queue_step, statusList, hu, List.filterMap_append]

/-! ## Claims -/

/-- C10: `process_image_to_video` selects landscape 1920x1080 exactly when
the image is strictly wider than tall; any image with width ≤ height,
including an exactly square one, yields portrait 1080x1920. -/
theorem C10_orientation (width height : Nat) :
    (height < width → output_dims width height = "1920x1080") ∧
    (width ≤ height → output_dims width height = "1080x1920") ∧
    (output_dims width height = "1920x1080" ↔ height < width) ∧
    output_dims width width = "1080x1920" := by
  refine ⟨?_, ?_, ?_, ?_⟩
  · intro h
    simp [output_dims, h]
  · intro h
    simp [output_dims, Nat.not_lt.mpr h]
  · by_cases h : height < width
    · simp [output_dims, h]
    · simp only [output_dims, if_neg h]
      constructor
      · intro he
        exact absurd he (by decide)
      · intro hlt
        exact absurd hlt h
  · simp [output_dims]

/-- C10 witness: a 1920x1080 image is landscape, a 1000x1000 image is
portrait. -/
theorem C10_witness :
    1080 < 1920 ∧ output_dims 1920 1080 = "1920x1080"
      ∧ output_dims 1000 1000 = "1080x1920" :=
  ⟨by decide, (C10_orientation 1920 1080).1 (by decide),
    (C10_orientation 1000 1000).2.1 (by decide)⟩

/-- C7: for a compose job whose engine invocation exits zero, a declared
output artifact that is missing or zero-length makes the job fail with an
EngineExecutionError 500 result, never success. -/
theorem C7_artifact_verification (fs : String → Option Nat)
    (diagnostic : String) (outputFilenames : List String)
    (metadata : List (List (String × JVal))) (base_url job_id f : String)
    (hmem : f ∈ outputFilenames) (hbad : fs f = none ∨ fs f = some 0) :
    (ffmpeg_api fs 0 diagnostic outputFilenames metadata base_url job_id).2.2
        = 500 ∧
    (ffmpeg_api fs 0 diagnostic outputFilenames metadata base_url job_id).2.2
        ≠ 200 ∧
    (ffmpeg_api fs 0 diagnostic outputFilenames metadata base_url job_id).1 =
      JVal.obj [("error",
        JVal.s "EngineExecutionError: output artifact missing or empty")] := by
  have hany : (outputFilenames.any fun g =>
      match fs g with
      | none => true
      | some n => n == 0) = true := by
    rw [List.any_eq_true]
    refine ⟨f, hmem, ?_⟩
    rcases hbad with h | h <;> rw [h] <;> rfl
  have hproc : process_ffmpeg_compose fs 0 diagnostic outputFilenames =
      Except.error "EngineExecutionError: output artifact missing or empty" := by
    unfold process_ffmpeg_compose
    simp [hany]
  refine ⟨?_, ?_, ?_⟩ <;> simp [ffmpeg_api, hproc]

/-- C7 witness: one declared artifact that exists with size 0 after a
zero-exit run yields the 500 EngineExecutionError result. -/
theorem C7_witness :
    "out0.mp4" ∈ ["out0.mp4"] ∧
    ((fun _ : String => some 0) "out0.mp4" = none
      ∨ (fun _ : String => some 0) "out0.mp4" = some 0) ∧
    (ffmpeg_api (fun _ => some 0) 0 "" ["out0.mp4"] [] "http://h" "job1").2.2
      = 500 :=
  ⟨by simp, Or.inr rfl,
    (C7_artifact_verification (fun _ => some 0) "" ["out0.mp4"] [] "http://h"
      "job1" "out0.mp4" (by simp) (Or.inr rfl)).1⟩

/-- C2: with configured maximum M, a queued-path submission is rejected
with 429 and a message naming the configured maximum, without enqueueing,
exactly when M > 0 and the depth has reached M; M = 0 means unlimited and
never rejects; and every 202 acknowledgment carries `max_queue_length` = M
when M > 0 and the literal "unlimited" when M = 0. -/
theorem C2_backpressure (env : Env) (job_id : String) (data : ReqData)
    (u : String) (qsize : Nat) (work : WorkResult) (t0 t1 : ℚ)
    (hwh : data.webhook_url = some u) :
    (0 < env.MAX_QUEUE_LENGTH → env.MAX_QUEUE_LENGTH ≤ qsize →
      (queue_task env false job_id data qsize work t0 t1).status = 429 ∧
      (queue_task env false job_id data qsize work t0 t1).enqueued = none ∧
      jget (queue_task env false job_id data qsize work t0 t1).body "message"
        = some (JVal.s ("MAX_QUEUE_LENGTH ("
            ++ toString env.MAX_QUEUE_LENGTH ++ ") reached"))) ∧
    (env.MAX_QUEUE_LENGTH = 0 →
      (queue_task env false job_id data qsize work t0 t1).status = 202 ∧
      (queue_task env false job_id data qsize work t0 t1).enqueued.isSome
        = true) ∧
    ((queue_task env false job_id data qsize work t0 t1).status = 202 →
      jget (queue_task env false job_id data qsize work t0 t1).body
          "max_queue_length"
        = some (if 0 < env.MAX_QUEUE_LENGTH then JVal.n env.MAX_QUEUE_LENGTH
            else JVal.s "unlimited")) := by
  refine ⟨?_, ?_, ?_⟩
  · intro hpos hfull
    simp [queue_task, hwh, hpos, hfull, jget]
  · intro hzero
    simp [queue_task, hwh, hzero]
  · intro h202
    by_cases hgate : 0 < env.MAX_QUEUE_LENGTH ∧ env.MAX_QUEUE_LENGTH ≤ qsize
    · simp [queue_task, hwh, hgate] at h202
    · simp [queue_task, hwh, hgate, jget]

/-- C2 witness: M = 1 with depth 1 rejects with 429 and the message names
the maximum; M = 0 always enqueues with 202. -/
theorem C2_witness :
    ((queue_task ⟨1, 7, 5, "b1"⟩ false "j1" ⟨some "http://cb", none⟩ 1
        ⟨JVal.nullv, "/e", 200⟩ 0 0).status = 429 ∧
      (queue_task ⟨1, 7, 5, "b1"⟩ false "j1" ⟨some "http://cb", none⟩ 1
        ⟨JVal.nullv, "/e", 200⟩ 0 0).enqueued = none ∧
      jget (queue_task ⟨1, 7, 5, "b1"⟩ false "j1" ⟨some "http://cb", none⟩ 1
        ⟨JVal.nullv, "/e", 200⟩ 0 0).body "message"
        = some (JVal.s "MAX_QUEUE_LENGTH (1) reached")) ∧
    ((queue_task ⟨0, 7, 5, "b1"⟩ false "j2" ⟨some "http://cb", none⟩ 9
        ⟨JVal.nullv, "/e", 200⟩ 0 0).status = 202 ∧
      (queue_task ⟨0, 7, 5, "b1"⟩ false "j2" ⟨some "http://cb", none⟩ 9
        ⟨JVal.nullv, "/e", 200⟩ 0 0).enqueued.isSome = true) :=
  ⟨(C2_backpressure ⟨1, 7, 5, "b1"⟩ "j1" ⟨some "http://cb", none⟩ "http://cb"
      1 ⟨JVal.nullv, "/e", 200⟩ 0 0 rfl).1 (by decide) (by decide),
    (C2_backpressure ⟨0, 7, 5, "b1"⟩ "j2" ⟨some "http://cb", none⟩ "http://cb"
      9 ⟨JVal.nullv, "/e", 200⟩ 0 0 rfl).2.1 rfl⟩

/-- C1 counterexample: a submission whose JSON has a `webhook_url` key,
arriving when `MAX_QUEUE_LENGTH = 1` and the queue already holds one item,
is not enqueued and does not get the 202 acknowledgment the claim promises:
it is rejected with 429. -/
theorem C1_counterexample :
    (queue_task ⟨1, 7, 5, "b1"⟩ false "j1" ⟨some "http://cb", none⟩ 1
      ⟨JVal.nullv, "/e", 200⟩ 0 0).status ≠ 202 ∧
    (queue_task ⟨1, 7, 5, "b1"⟩ false "j1" ⟨some "http://cb", none⟩ 1
      ⟨JVal.nullv, "/e", 200⟩ 0 0).status = 429 ∧
    (queue_task ⟨1, 7, 5, "b1"⟩ false "j1" ⟨some "http://cb", none⟩ 1
      ⟨JVal.nullv, "/e", 200⟩ 0 0).enqueued = none := by
  refine ⟨?_, ?_, ?_⟩ <;> simp [queue_task]

/-- C1 (amended): bypass or an absent `webhook_url` key runs the work
inline and returns its real status code; otherwise, if the admission gate
passes, the job is enqueued and 202 is returned immediately, and if the
gate rejects (M > 0 and depth ≥ M) the submission returns 429 without
being enqueued. -/
theorem C1_dispatch_amended (env : Env) (bypass_queue : Bool)
    (job_id : String) (data : ReqData) (qsize : Nat) (work : WorkResult)
    (t0 t1 : ℚ) :
    (bypass_queue = true ∨ data.webhook_url = none →
      (queue_task env bypass_queue job_id data qsize work t0 t1).status
          = work.code ∧
      (queue_task env bypass_queue job_id data qsize work t0 t1).enqueued
          = none ∧
      jget (queue_task env bypass_queue job_id data qsize work t0 t1).body
          "code" = some (JVal.n work.code)) ∧
    (∀ u, bypass_queue = false → data.webhook_url = some u →
      env.MAX_QUEUE_LENGTH = 0 ∨ qsize < env.MAX_QUEUE_LENGTH →
      (queue_task env bypass_queue job_id data qsize work t0 t1).status
          = 202 ∧
      (queue_task env bypass_queue job_id data qsize work t0 t1).enqueued
          = some { job_id := job_id, data := data, work := work
                   queue_start_time := t0 }) ∧
    (∀ u, bypass_queue = false → data.webhook_url = some u →
      0 < env.MAX_QUEUE_LENGTH → env.MAX_QUEUE_LENGTH ≤ qsize →
      (queue_task env bypass_queue job_id data qsize work t0 t1).status
          = 429 ∧
      (queue_task env bypass_queue job_id data qsize work t0 t1).enqueued
          = none) := by
  refine ⟨?_, ?_, ?_⟩
  · rintro (hb | hw)
    · simp [queue_task, hb, jget]
    · simp [queue_task, hw, jget]
  · intro u hb hw hadm
    have hgate : ¬(0 < env.MAX_QUEUE_LENGTH ∧ env.MAX_QUEUE_LENGTH ≤ qsize) := by
      rcases hadm with h | h <;> omega
    simp [queue_task, hb, hw, hgate]
  · intro u hb hw hpos hfull
    simp [queue_task, hb, hw, hpos, hfull]

/-- C1 witness: with an unlimited queue, a submission carrying a webhook
target is enqueued and acknowledged with 202; a submission without the key
runs inline with its real status code. -/
theorem C1_witness :
    ((queue_task ⟨0, 7, 5, "b1"⟩ false "jw" ⟨some "http://cb", none⟩ 0
        ⟨JVal.nullv, "/e", 200⟩ 0 0).status = 202 ∧
      (queue_task ⟨0, 7, 5, "b1"⟩ false "jw" ⟨some "http://cb", none⟩ 0
        ⟨JVal.nullv, "/e", 200⟩ 0 0).enqueued
        = some { job_id := "jw", data := ⟨some "http://cb", none⟩
                 work := ⟨JVal.nullv, "/e", 200⟩, queue_start_time := 0 }) ∧
    ((queue_task ⟨0, 7, 5, "b1"⟩ false "jx" ⟨none, none⟩ 0
        ⟨JVal.s "ok", "/e", 418⟩ 0 0).status = 418 ∧
      (queue_task ⟨0, 7, 5, "b1"⟩ false "jx" ⟨none, none⟩ 0
        ⟨JVal.s "ok", "/e", 418⟩ 0 0).enqueued = none ∧
      jget (queue_task ⟨0, 7, 5, "b1"⟩ false "jx" ⟨none, none⟩ 0
        ⟨JVal.s "ok", "/e", 418⟩ 0 0).body "code" = some (JVal.n 418)) :=
  ⟨(C1_dispatch_amended ⟨0, 7, 5, "b1"⟩ false "jw" ⟨some "http://cb", none⟩ 0
      ⟨JVal.nullv, "/e", 200⟩ 0 0).2.1 "http://cb" rfl rfl (Or.inl rfl),
    (C1_dispatch_amended ⟨0, 7, 5, "b1"⟩ false "jx" ⟨none, none⟩ 0
      ⟨JVal.s "ok", "/e", 418⟩ 0 0).1 (Or.inr rfl)⟩

/-- C3 counterexample: the envelope of a job completed on the immediate
(bypass) path has no `endpoint` key, so the two paths do not share the
claimed 13-key shape. -/
theorem C3_counterexample :
    "endpoint" ∉ (queue_task ⟨0, 7, 5, "b1"⟩ true "j1" ⟨none, none⟩ 0
      ⟨JVal.nullv, "/e", 200⟩ 0 0).body.map Prod.fst ∧
    (queue_task ⟨0, 7, 5, "b1"⟩ true "j1" ⟨none, none⟩ 0
      ⟨JVal.nullv, "/e", 200⟩ 0 0).body.map Prod.fst ≠
      ["endpoint", "code", "id", "job_id", "response", "message", "pid",
       "queue_id", "run_time", "queue_time", "total_time", "queue_length",
       "build_number"] := by
  refine ⟨?_, ?_⟩ <;> simp [queue_task]

/-- C3 (amended): the queued-path envelope has exactly the 13 keys
endpoint, code, id, job_id, response, message, pid, queue_id, run_time,
queue_time, total_time, queue_length, build_number; the bypass-path
envelope has exactly those keys except `endpoint` (12 keys). -/
theorem C3_envelope_keys_amended (env : Env) (bypass_queue : Bool)
    (job_id : String) (data : ReqData) (qsize : Nat) (work : WorkResult)
    (t0 t1 : ℚ) (job : QueuedJob) (tD tRS tRE tTE : ℚ) (qa : Nat) :
    (process_queue_step env job tD tRS tRE tTE qa).1.map Prod.fst =
      ["endpoint", "code", "id", "job_id", "response", "message", "pid",
       "queue_id", "run_time", "queue_time", "total_time", "queue_length",
       "build_number"] ∧
    (bypass_queue = true ∨ data.webhook_url = none →
      (queue_task env bypass_queue job_id data qsize work t0 t1).body.map
          Prod.fst =
        ["code", "id", "job_id", "response", "message", "run_time",
         "queue_time", "total_time", "pid", "queue_id", "queue_length",
         "build_number"]) := by
  refine ⟨by simp [process_queue_step], ?_⟩
  rintro (hb | hw)
  · simp [queue_task, hb]
  · simp [queue_task, hw]

/-- C3 witness: the bypass-path key list at a concrete submission. -/
theorem C3_witness :
    (queue_task ⟨0, 7, 5, "b1"⟩ true "jw" ⟨none, none⟩ 0
      ⟨JVal.nullv, "/e", 200⟩ 0 0).body.map Prod.fst =
      ["code", "id", "job_id", "response", "message", "run_time",
       "queue_time", "total_time", "pid", "queue_id", "queue_length",
       "build_number"] :=
  (C3_envelope_keys_amended ⟨0, 7, 5, "b1"⟩ true "jw" ⟨none, none⟩ 0
    ⟨JVal.nullv, "/e", 200⟩ 0 0 ⟨"jw", ⟨none, none⟩, ⟨JVal.nullv, "/e", 200⟩, 0⟩
    0 0 0 0 0).2 (Or.inl rfl)

/-- C4 counterexample: an admission-rejected submission (M = 1, depth 1,
webhook present) emits a `done` status observation with no preceding
`running` observation for that job id. -/
theorem C4_counterexample :
    statusList (queue_task ⟨1, 7, 5, "b1"⟩ false "j1" ⟨some "http://cb", none⟩
      1 ⟨JVal.nullv, "/e", 200⟩ 0 0).events "j1" = ["done"] ∧
    donePrecededByRunning (statusList (queue_task ⟨1, 7, 5, "b1"⟩ false "j1"
      ⟨some "http://cb", none⟩ 1 ⟨JVal.nullv, "/e", 200⟩ 0 0).events "j1")
      = false := by
  refine ⟨?_, ?_⟩ <;>
    simp [queue_task, statusList, donePrecededByRunning,
      donePrecededByRunningAux]

/-- C4 (amended): on the bypass path and on the accepted queued path every
`done` observation for a job is preceded by a `running` observation for the
same job; an admission-rejected submission instead emits a single `done`
observation and never a `running` one. -/
theorem C4_status_order_amended (env : Env) (bypass_queue : Bool)
    (job_id : String) (data : ReqData) (qsize : Nat) (work : WorkResult)
    (t0 t1 tD tRS tRE tTE : ℚ) (qa : Nat) :
    (bypass_queue = true ∨ data.webhook_url = none →
      donePrecededByRunning (statusList
        (queue_task env bypass_queue job_id data qsize work t0 t1).events
        job_id) = true) ∧
    (∀ job,
      (queue_task env bypass_queue job_id data qsize work t0 t1).enqueued
          = some job →
      donePrecededByRunning (statusList
        ((queue_task env bypass_queue job_id data qsize work t0 t1).events
          ++ (process_queue_step env job tD tRS tRE tTE qa).2) job_id)
        = true) ∧
    (∀ u, bypass_queue = false → data.webhook_url = some u →
      0 < env.MAX_QUEUE_LENGTH → env.MAX_QUEUE_LENGTH ≤ qsize →
      statusList
        (queue_task env bypass_queue job_id data qsize work t0 t1).events
        job_id = ["done"]) := by
  refine ⟨?_, ?_, ?_⟩
  · rintro (hb | hw)
    · simp [queue_task, hb, statusList, donePrecededByRunning,
        donePrecededByRunningAux]
    · simp [queue_task, hw, statusList, donePrecededByRunning,
        donePrecededByRunningAux]
  · intro job hjob
    cases bypass_queue with
    | true => simp [queue_task] at hjob
    | false =>
      cases hwv : data.webhook_url with
      | none => simp [queue_task, hwv] at hjob
      | some u =>
        by_cases hgate : 0 < env.MAX_QUEUE_LENGTH ∧ env.MAX_QUEUE_LENGTH ≤ qsize
        · simp [queue_task, hwv, hgate] at hjob
        · have hjob2 : job = QueuedJob.mk job_id data work t0 := by
            simp [queue_task, hwv, hgate] at hjob
            exact hjob.symm
          have hs := statusList_process_queue_step env job tD tRS tRE tTE qa
          rw [hjob2] at hs ⊢
          rw [statusList, List.filterMap_append]
          rw [statusList] at hs
          rw [hs]
          simp [queue_task, hwv, hgate, statusList,
            donePrecededByRunning, donePrecededByRunningAux]
  · intro u hb hw hpos hfull
    simp [queue_task, hb, hw, hpos, hfull, statusList]

/-- C4 witness: bypass path and accepted-queue path at concrete inputs both
satisfy the done-after-running discipline. -/
theorem C4_witness :
    donePrecededByRunning (statusList (queue_task ⟨0, 7, 5, "b1"⟩ true "jw"
      ⟨none, none⟩ 0 ⟨JVal.nullv, "/e", 200⟩ 0 0).events "jw") = true ∧
    donePrecededByRunning (statusList
      ((queue_task ⟨0, 7, 5, "b1"⟩ false "jq" ⟨some "http://cb", none⟩ 0
          ⟨JVal.nullv, "/e", 200⟩ 0 0).events
        ++ (process_queue_step ⟨0, 7, 5, "b1"⟩
            { job_id := "jq", data := ⟨some "http://cb", none⟩
              work := ⟨JVal.nullv, "/e", 200⟩, queue_start_time := 0 }
            0 0 0 0 0).2) "jq") = true :=
  ⟨(C4_status_order_amended ⟨0, 7, 5, "b1"⟩ true "jw" ⟨none, none⟩ 0
      ⟨JVal.nullv, "/e", 200⟩ 0 0 0 0 0 0 0).1 (Or.inl rfl),
    (C4_status_order_amended ⟨0, 7, 5, "b1"⟩ false "jq"
      ⟨some "http://cb", none⟩ 0 ⟨JVal.nullv, "/e", 200⟩ 0 0 0 0 0 0 0).2.1
      { job_id := "jq", data := ⟨some "http://cb", none⟩
        work := ⟨JVal.nullv, "/e", 200⟩, queue_start_time := 0 }
      (by simp [queue_task])⟩

/-- C5 counterexample: a queued job whose `webhook_url` is the empty string
and whose work fails (code 500) completes with no webhook delivery at all,
so the failed envelope is not delivered via webhook as the claim states. -/
theorem C5_counterexample :
    (process_queue_step ⟨0, 7, 5, "b1"⟩
        ⟨"j1", ⟨some "", none⟩, ⟨JVal.s "boom", "/e", 500⟩, 0⟩
        0 0 0 0 0).2.length = 2 ∧
    webhookEvents (process_queue_step ⟨0, 7, 5, "b1"⟩
        ⟨"j1", ⟨some "", none⟩, ⟨JVal.s "boom", "/e", 500⟩, 0⟩
        0 0 0 0 0).2 = [] ∧
    ((500 : Int) = 200 → False) := by
  refine ⟨rfl, rfl, by decide⟩

/-- C5 (amended): on the queued path a `done` observation is emitted right
after the work returns, for success and failure alike; the envelope has
`response` = payload and `message` = "success" when the code is 200 and
`response` = null and `message` = the error payload otherwise; and the
envelope (of failed and successful jobs alike) is delivered via webhook
exactly when the stored `webhook_url` is a non-empty string. -/
theorem C5_done_and_errors_amended (env : Env) (job : QueuedJob)
    (tD tRS tRE tTE : ℚ) (qa : Nat) (u : String)
    (hwh : job.data.webhook_url = some u) (hne : u ≠ "") :
    statusList (process_queue_step env job tD tRS tRE tTE qa).2 job.job_id
      = ["running", "done"] ∧
    jget (process_queue_step env job tD tRS tRE tTE qa).1 "response" =
      some (if job.work.code = 200 then job.work.payload else JVal.nullv) ∧
    jget (process_queue_step env job tD tRS tRE tTE qa).1 "message" =
      some (if job.work.code = 200 then JVal.s "success"
        else job.work.payload) ∧
    webhookEvents (process_queue_step env job tD tRS tRE tTE qa).2 =
      [(u, (process_queue_step env job tD tRS tRE tTE qa).1)] := by
  refine ⟨statusList_process_queue_step env job tD tRS tRE tTE qa, ?_, ?_, ?_⟩
  · simp [process_queue_step, jget]
  · simp [process_queue_step, jget]
  · simp [process_queue_step, webhookEvents, hwh, hne]

/-- C5 witness: a failing queued job with a real webhook target yields a
running-then-done trace, a null `response`, the error payload in `message`,
and one webhook delivery of the envelope. -/
theorem C5_witness :
    statusList (process_queue_step ⟨0, 7, 5, "b1"⟩
        ⟨"j1", ⟨some "http://cb", none⟩, ⟨JVal.s "boom", "/e", 500⟩, 0⟩
        0 0 0 0 0).2 "j1" = ["running", "done"] ∧
    jget (process_queue_step ⟨0, 7, 5, "b1"⟩
        ⟨"j1", ⟨some "http://cb", none⟩, ⟨JVal.s "boom", "/e", 500⟩, 0⟩
        0 0 0 0 0).1 "response" =
      some (if (500 : Int) = 200 then JVal.s "boom" else JVal.nullv) ∧
    jget (process_queue_step ⟨0, 7, 5, "b1"⟩
        ⟨"j1", ⟨some "http://cb", none⟩, ⟨JVal.s "boom", "/e", 500⟩, 0⟩
        0 0 0 0 0).1 "message" =
      some (if (500 : Int) = 200 then JVal.s "success" else JVal.s "boom") ∧
    webhookEvents (process_queue_step ⟨0, 7, 5, "b1"⟩
        ⟨"j1", ⟨some "http://cb", none⟩, ⟨JVal.s "boom", "/e", 500⟩, 0⟩
        0 0 0 0 0).2 =
      [("http://cb", (process_queue_step ⟨0, 7, 5, "b1"⟩
        ⟨"j1", ⟨some "http://cb", none⟩, ⟨JVal.s "boom", "/e", 500⟩, 0⟩
        0 0 0 0 0).1)] :=
  C5_done_and_errors_amended ⟨0, 7, 5, "b1"⟩
    ⟨"j1", ⟨some "http://cb", none⟩, ⟨JVal.s "boom", "/e", 500⟩, 0⟩
    0 0 0 0 0 "http://cb" rfl (by decide)

/-- C6: on the queued path, when the dequeue and run-start timestamps
coincide and so do the run-end and total-end timestamps (adjacent
`time.time()` calls), queue_time is the rounded enqueue-to-dequeue
duration, run_time the rounded dequeue-to-completion duration, total_time
the rounded enqueue-to-completion duration, and total_time differs from
queue_time + run_time by at most 0.001. -/
theorem C6_timing (env : Env) (job : QueuedJob) (tD tRS tRE tTE : ℚ)
    (qa : Nat) (hrs : tRS = tD) (hte : tTE = tRE) :
    jget (process_queue_step env job tD tRS tRE tTE qa).1 "queue_time" =
      some (JVal.q (round3 (tD - job.queue_start_time))) ∧
    jget (process_queue_step env job tD tRS tRE tTE qa).1 "run_time" =
      some (JVal.q (round3 (tRE - tD))) ∧
    jget (process_queue_step env job tD tRS tRE tTE qa).1 "total_time" =
      some (JVal.q (round3 (tRE - job.queue_start_time))) ∧
    |round3 (tRE - job.queue_start_time)
        - (round3 (tD - job.queue_start_time) + round3 (tRE - tD))|
      ≤ 1 / 1000 := by
  refine ⟨?_, ?_, ?_, ?_⟩
  · simp [process_queue_step, jget, hrs, hte]
  · simp [process_queue_step, jget, hrs, hte]
  · simp [process_queue_step, jget, hrs, hte]
  · have h := round3_add_bound (tD - job.queue_start_time) (tRE - tD)
    rw [sub_add_sub_cancel' tD job.queue_start_time tRE] at h
    exact h

/-- C6 witness: concrete timestamps (enqueue at 0, dequeue at 1/2,
completion at 2). -/
theorem C6_witness :
    jget (process_queue_step ⟨0, 7, 5, "b1"⟩
        ⟨"j1", ⟨some "http://cb", none⟩, ⟨JVal.nullv, "/e", 200⟩, 0⟩
        (1/2) (1/2) 2 2 0).1 "queue_time" =
      some (JVal.q (round3 ((1:ℚ)/2 - 0))) ∧
    jget (process_queue_step ⟨0, 7, 5, "b1"⟩
        ⟨"j1", ⟨some "http://cb", none⟩, ⟨JVal.nullv, "/e", 200⟩, 0⟩
        (1/2) (1/2) 2 2 0).1 "run_time" =
      some (JVal.q (round3 ((2:ℚ) - 1/2))) ∧
    jget (process_queue_step ⟨0, 7, 5, "b1"⟩
        ⟨"j1", ⟨some "http://cb", none⟩, ⟨JVal.nullv, "/e", 200⟩, 0⟩
        (1/2) (1/2) 2 2 0).1 "total_time" =
      some (JVal.q (round3 ((2:ℚ) - 0))) ∧
    |round3 ((2:ℚ) - 0) - (round3 ((1:ℚ)/2 - 0) + round3 ((2:ℚ) - 1/2))|
      ≤ 1 / 1000 :=
  C6_timing ⟨0, 7, 5, "b1"⟩
    ⟨"j1", ⟨some "http://cb", none⟩, ⟨JVal.nullv, "/e", 200⟩, 0⟩
    (1/2) (1/2) 2 2 0 rfl rfl

/-- C9 counterexample: with `MAX_QUEUE_LENGTH = 1` and depth 1, a
submission whose `webhook_url` is the empty string is rejected with 429,
so the caller does not receive the 202 acknowledgment the claim
promises. -/
theorem C9_counterexample :
    (queue_task ⟨1, 7, 5, "b1"⟩ false "j1" ⟨some "", none⟩ 1
      ⟨JVal.nullv, "/e", 200⟩ 0 0).status = 429 ∧
    (queue_task ⟨1, 7, 5, "b1"⟩ false "j1" ⟨some "", none⟩ 1
      ⟨JVal.nullv, "/e", 200⟩ 0 0).status ≠ 202 := by
  refine ⟨?_, ?_⟩ <;> simp [queue_task]

/-- C9 (amended): a submission whose JSON has `webhook_url` bound to the
empty string takes the queued path; provided the admission gate admits it,
the caller receives only the 202 acknowledgment, and after the job
completes no webhook delivery is attempted: the Result Envelope is emitted
only in the `done` status observation and never reaches the caller. -/
theorem C9_empty_webhook_amended (env : Env) (job_id : String)
    (data : ReqData) (qsize : Nat) (work : WorkResult)
    (t0 t1 tD tRS tRE tTE : ℚ) (qa : Nat)
    (hwh : data.webhook_url = some "")
    (hadm : env.MAX_QUEUE_LENGTH = 0 ∨ qsize < env.MAX_QUEUE_LENGTH) :
    (queue_task env false job_id data qsize work t0 t1).status = 202 ∧
    (queue_task env false job_id data qsize work t0 t1).enqueued =
      some (QueuedJob.mk job_id data work t0) ∧
    jget (queue_task env false job_id data qsize work t0 t1).body "response"
      = none ∧
    webhookEvents
      (process_queue_step env (QueuedJob.mk job_id data work t0)
        tD tRS tRE tTE qa).2 = [] ∧
    (process_queue_step env (QueuedJob.mk job_id data work t0)
        tD tRS tRE tTE qa).2 =
      [Event.status job_id
        ⟨"running", job_id, env.queue_id, env.pid, none⟩,
       Event.status job_id
        ⟨"done", job_id, env.queue_id, env.pid,
          some (process_queue_step env (QueuedJob.mk job_id data work t0)
            tD tRS tRE tTE qa).1⟩] := by
  have hgate : ¬(0 < env.MAX_QUEUE_LENGTH ∧ env.MAX_QUEUE_LENGTH ≤ qsize) := by
    rcases hadm with h | h <;> omega
  refine ⟨?_, ?_, ?_, ?_, ?_⟩
  · simp [queue_task, hwh, hgate]
  · simp [queue_task, hwh, hgate]
  · simp [queue_task, hwh, hgate, jget]
  · simp [process_queue_step, webhookEvents, hwh]
  · simp [process_queue_step, hwh]

/-- C9 witness: unlimited queue, empty-string webhook target. -/
theorem C9_witness :
    (queue_task ⟨0, 7, 5, "b1"⟩ false "j1" ⟨some "", none⟩ 0
      ⟨JVal.nullv, "/e", 200⟩ 0 0).status = 202 ∧
    (queue_task ⟨0, 7, 5, "b1"⟩ false "j1" ⟨some "", none⟩ 0
      ⟨JVal.nullv, "/e", 200⟩ 0 0).enqueued =
      some (QueuedJob.mk "j1" ⟨some "", none⟩ ⟨JVal.nullv, "/e", 200⟩ 0) ∧
    jget (queue_task ⟨0, 7, 5, "b1"⟩ false "j1" ⟨some "", none⟩ 0
      ⟨JVal.nullv, "/e", 200⟩ 0 0).body "response" = none ∧
    webhookEvents (process_queue_step ⟨0, 7, 5, "b1"⟩
      (QueuedJob.mk "j1" ⟨some "", none⟩ ⟨JVal.nullv, "/e", 200⟩ 0)
      1 1 2 2 0).2 = [] ∧
    (process_queue_step ⟨0, 7, 5, "b1"⟩
      (QueuedJob.mk "j1" ⟨some "", none⟩ ⟨JVal.nullv, "/e", 200⟩ 0)
      1 1 2 2 0).2 =
      [Event.status "j1" ⟨"running", "j1", 7, 5, none⟩,
       Event.status "j1" ⟨"done", "j1", 7, 5,
        some (process_queue_step ⟨0, 7, 5, "b1"⟩
          (QueuedJob.mk "j1" ⟨some "", none⟩ ⟨JVal.nullv, "/e", 200⟩ 0)
          1 1 2 2 0).1⟩] :=
  C9_empty_webhook_amended ⟨0, 7, 5, "b1"⟩ "j1" ⟨some "", none⟩ 0
    ⟨JVal.nullv, "/e", 200⟩ 0 0 1 1 2 2 0 rfl (Or.inl rfl)

/-- C8: for every valid Pipeline Specification, the compiled Invocation
Plan has exactly one input locator per declared input and exactly one
output destination per declared output, each in declared order, and each
input's pre-input options sit contiguously, in declared order, immediately
before that input's locator. -/
theorem C8_plan_structure (spec : PipelineSpec)
    (h1 : spec.inputs ≠ []) (h2 : spec.outputs ≠ []) :
    ∃ plan, compile spec = Except.ok plan ∧
      plan.filterMap inputLocatorOf = spec.inputs.map InputSpec.file_url ∧
      plan.filterMap outputDestOf = List.range spec.outputs.length ∧
      ∀ inp ∈ spec.inputs,
        (inp.options.map PlanElem.inputOpt
          ++ [PlanElem.inputLocator inp.file_url]) <:+: plan := by
  have hcond : ¬(spec.inputs = [] ∨ spec.outputs = []) := by
    rintro (h | h)
    · exact h1 h
    · exact h2 h
  have henum : spec.outputs.enum = List.enumFrom 0 spec.outputs := rfl
  have hglobI : (spec.global_options.map PlanElem.globalOpt).filterMap
      inputLocatorOf = [] :=
    filterMap_none_of_forall _ _ (by
      intro a ha
      rcases List.mem_map.mp ha with ⟨o, _, rfl⟩
      rfl)
  have hglobO : (spec.global_options.map PlanElem.globalOpt).filterMap
      outputDestOf = [] :=
    filterMap_none_of_forall _ _ (by
      intro a ha
      rcases List.mem_map.mp ha with ⟨o, _, rfl⟩
      rfl)
  have hfiltI : ((if spec.filters = [] then []
      else [PlanElem.filterGraph
        (String.intercalate ";" spec.filters)]) : List PlanElem).filterMap
      inputLocatorOf = [] := by
    by_cases hf : spec.filters = [] <;> simp [hf, inputLocatorOf]
  have hfiltO : ((if spec.filters = [] then []
      else [PlanElem.filterGraph
        (String.intercalate ";" spec.filters)]) : List PlanElem).filterMap
      outputDestOf = [] := by
    by_cases hf : spec.filters = [] <;> simp [hf, outputDestOf]
  refine ⟨spec.global_options.map PlanElem.globalOpt
      ++ spec.inputs.flatMap (fun i => i.options.map PlanElem.inputOpt
          ++ [PlanElem.inputLocator i.file_url])
      ++ (if spec.filters = [] then []
          else [PlanElem.filterGraph (String.intercalate ";" spec.filters)])
      ++ spec.outputs.enum.flatMap (fun io =>
          io.2.options.map PlanElem.outputOpt ++ [PlanElem.outputDest io.1]),
    ?_, ?_, ?_, ?_⟩
  · unfold compile
    rw [if_neg hcond]
  · simp only [List.filterMap_append, hglobI, hfiltI, henum,
      filterMap_inputLocator_inputs, filterMap_inputLocator_outputs,
      List.nil_append, List.append_nil]
  · simp only [List.filterMap_append, hglobO, hfiltO, henum,
      filterMap_outputDest_inputs, filterMap_outputDest_enumFrom,
      List.nil_append, List.append_nil]
    rw [List.range_eq_range']
  · intro inp hmem
    have hin : (inp.options.map PlanElem.inputOpt
        ++ [PlanElem.inputLocator inp.file_url]) <:+:
        spec.inputs.flatMap (fun i =>
          i.options.map PlanElem.inputOpt
            ++ [PlanElem.inputLocator i.file_url]) := by
      rw [List.flatMap_def]
      exact List.infix_of_mem_flatten (List.mem_map_of_mem _ hmem)
    refine hin.trans ?_
    exact ⟨spec.global_options.map PlanElem.globalOpt,
      (if spec.filters = [] then []
        else [PlanElem.filterGraph (String.intercalate ";" spec.filters)])
        ++ spec.outputs.enum.flatMap (fun io =>
          io.2.options.map PlanElem.outputOpt
            ++ [PlanElem.outputDest io.1]),
      by simp [List.append_assoc]⟩

/-- C8 witness: a spec with two inputs (the first carrying two pre-input
options), one filter, and one output. -/
theorem C8_witness :
    (PipelineSpec.mk
      [InputSpec.mk "a.mp4" [FFOption.mk "-ss" (some "3"),
        FFOption.mk "-hwaccel" none], InputSpec.mk "b.mp4" []]
      ["scale=640:480"] [OutputSpec.mk [FFOption.mk "-vcodec" (some "h264")]]
      [FFOption.mk "-y" none]).inputs ≠ [] ∧
    ∃ plan, compile (PipelineSpec.mk
        [InputSpec.mk "a.mp4" [FFOption.mk "-ss" (some "3"),
          FFOption.mk "-hwaccel" none], InputSpec.mk "b.mp4" []]
        ["scale=640:480"]
        [OutputSpec.mk [FFOption.mk "-vcodec" (some "h264")]]
        [FFOption.mk "-y" none]) = Except.ok plan ∧
      plan.filterMap inputLocatorOf =
        (PipelineSpec.mk
          [InputSpec.mk "a.mp4" [FFOption.mk "-ss" (some "3"),
            FFOption.mk "-hwaccel" none], InputSpec.mk "b.mp4" []]
          ["scale=640:480"]
          [OutputSpec.mk [FFOption.mk "-vcodec" (some "h264")]]
          [FFOption.mk "-y" none]).inputs.map InputSpec.file_url ∧
      plan.filterMap outputDestOf = List.range 1 ∧
      ∀ inp ∈ (PipelineSpec.mk
          [InputSpec.mk "a.mp4" [FFOption.mk "-ss" (some "3"),
            FFOption.mk "-hwaccel" none], InputSpec.mk "b.mp4" []]
          ["scale=640:480"]
          [OutputSpec.mk [FFOption.mk "-vcodec" (some "h264")]]
          [FFOption.mk "-y" none]).inputs,
        (inp.options.map PlanElem.inputOpt
          ++ [PlanElem.inputLocator inp.file_url]) <:+: plan :=
  ⟨by simp,
    C8_plan_structure (PipelineSpec.mk
      [InputSpec.mk "a.mp4" [FFOption.mk "-ss" (some "3"),
        FFOption.mk "-hwaccel" none], InputSpec.mk "b.mp4" []]
      ["scale=640:480"] [OutputSpec.mk [FFOption.mk "-vcodec" (some "h264")]]
      [FFOption.mk "-y" none]) (by simp) (by simp)⟩
